import Mathlib

/-!
Shallow embedding of the `@termeh-v/modal` stacked-modal library core.

The registry (`useCore`), the container view (`useContainer`), the factory
(`useModal`), the option resolver (`internal/options`) and the modal instance
controller (`useCreate` / `useAnimation`) are translated into executable Lean
definitions.  JavaScript `Map` objects (which preserve insertion order, update
in place on `set` of an existing key, and delete by key) are modelled as
association lists with exactly those semantics.  The single-threaded
promise/microtask discipline of the instance controller is modelled as a
small-step interpreter over an explicit state carrying a FIFO queue of pending
promise continuations.
-/

namespace ModalSpec

/-- Insertion-ordered string-keyed map, as a JavaScript `Map`: association
list in insertion order. -/
abbrev OMap (β : Type) := List (String × β)

/-- `Map.prototype.set`: update the existing entry in place (keeping its
position), append otherwise.  A JS `Map` never holds duplicate keys, so
replacing the first occurrence is the in-place update. -/
def omapSet {β : Type} : OMap β → String → β → OMap β
  | [], k, v => [(k, v)]
  | a :: t, k, v => if a.1 == k then (k, v) :: t else a :: omapSet t k v

/-- `Map.prototype.delete`: remove the entry with the given key. -/
def omapDelete {β : Type} : OMap β → String → OMap β
  | [], _ => []
  | a :: t, k => if a.1 == k then t else a :: omapDelete t k

/-- `Map.prototype.get`: the entry with the given key. -/
def omapGet {β : Type} : OMap β → String → Option β
  | [], _ => none
  | a :: t, k => if a.1 == k then some a.2 else omapGet t k

/-- One animation definition: keyframes (`params`) and timing (`options`),
both opaque to the core and both optional.  Opaque values are represented by
string tokens. -/
structure Animation where
  params : Option String
  options : Option String
deriving DecidableEq, Repr

/-- The `ModalAnimations` map from `internal/types.ts`, one optional entry per
transition name. -/
structure ModalAnimations where
  enter : Option Animation := none
  refuse : Option Animation := none
  leave : Option Animation := none
  mobileEnter : Option Animation := none
  mobileRefuse : Option Animation := none
  mobileLeave : Option Animation := none
  activate : Option Animation := none
  secondary : Option Animation := none
  tertiary : Option Animation := none
  hide : Option Animation := none
deriving DecidableEq, Repr

/-- A fully-resolved `ContainerOption` (`internal/types.ts`). -/
structure ContainerOption where
  closable : Bool
  bodyClass : Option String := none
  animations : ModalAnimations := {}
deriving DecidableEq, Repr

/-- A `DeepPartial<ContainerOption>` override: every field optional. -/
structure OptionPatch where
  closable : Option Bool := none
  bodyClass : Option String := none
  animations : Option ModalAnimations := none
deriving DecidableEq, Repr

/-- The modal descriptor stored in the registry (`Modal` in
`internal/types.ts`).  The renderable component and its props are opaque;
optional user callbacks are tracked by presence flags, their behaviour is
supplied separately to the instance-controller semantics. -/
structure ModalDesc where
  key : String
  identifier : String
  container : String
  closable : Bool
  hasOnOpen : Bool := false
  hasOnClose : Bool := false
  hasOnClick : Bool := false
  hasOnAction : Bool := false
  component : String := ""
  props : String := ""
deriving DecidableEq, Repr

/-- The global registry state of `useCore`: container name → options override,
and container name → insertion-ordered map of modal descriptors keyed by
identifier. -/
structure Core where
  options : OMap OptionPatch := []
  modals : OMap (OMap ModalDesc) := []
deriving DecidableEq, Repr

/-- `useCore().setOptions(container, option)`: store the override when the
container name is truthy and the value is an object, delete the entry
otherwise (`none` stands for a non-object value). -/
def setOptions (c : Core) (container : String) (opt : Option OptionPatch) : Core :=
  match opt with
  | some o =>
      if container ≠ "" then { c with options := omapSet c.options container o }
      else { c with options := omapDelete c.options container }
  | none => { c with options := omapDelete c.options container }

/-- `useCore().getOptions(container)`: the stored override or `{}`. -/
def getOptions (c : Core) (container : String) : OptionPatch :=
  (omapGet c.options container).getD {}

/-- `useCore().addModal(container, modal)`: lazily create the container's map
and `set` the descriptor under its identifier. -/
def addModal (c : Core) (container : String) (m : ModalDesc) : Core :=
  let inner := (omapGet c.modals container).getD []
  { c with modals := omapSet c.modals container (omapSet inner m.identifier m) }

/-- `useCore().removeModal(container, modalId)`: delete by identifier inside
the container's map, no-op when the container has no map. -/
def removeModal (c : Core) (container : String) (modalId : String) : Core :=
  match omapGet c.modals container with
  | none => c
  | some inner => { c with modals := omapSet c.modals container (omapDelete inner modalId) }

/-- `useCore().getContainerModals(container)`: the container's descriptors in
insertion order (`Array.from(map.values())`). -/
def getContainerModals (c : Core) (container : String) : List ModalDesc :=
  ((omapGet c.modals container).getD []).map (fun p => p.2)

/-- Identifiers currently registered in a container, in insertion order. -/
def containerIds (c : Core) (container : String) : List String :=
  ((omapGet c.modals container).getD []).map (fun p => p.1)

/-- `useContainer`: `count = modals.value.length`. -/
def containerCount (c : Core) (container : String) : Nat :=
  (getContainerModals c container).length

/-- `useContainer`: `isEmpty = (modals.value.length === 0)`. -/
def containerIsEmpty (c : Core) (container : String) : Bool :=
  (getContainerModals c container).length == 0

/-- `useContainer`: `activeId = modals.value.length ?
modals.value[modals.value.length - 1]?.key : undefined`. -/
def containerActiveId (c : Core) (container : String) : Option String :=
  let l := getContainerModals c container
  if l.length ≠ 0 then (l.get? (l.length - 1)).map (fun m => m.key) else none

/-! ### Ordered-map lemmas -/

theorem omapSet_fresh {β : Type} (m : OMap β) (k : String) (v : β)
    (h : k ∉ m.map (fun p => p.1)) : omapSet m k v = m ++ [(k, v)] := by
  induction m with
  | nil => rfl
  | cons a t ih =>
      simp only [List.map_cons, List.mem_cons, not_or] at h
      have ha : (a.1 == k) = false := beq_eq_false_iff_ne.mpr (fun hc => h.1 hc.symm)
      simp [omapSet, ha, ih h.2]

theorem omapGet_set_self {β : Type} (m : OMap β) (k : String) (v : β) :
    omapGet (omapSet m k v) k = some v := by
  induction m with
  | nil => simp [omapSet, omapGet]
  | cons a t ih =>
      by_cases ha : (a.1 == k) = true
      · simp [omapSet, omapGet, ha]
      · have ha' : (a.1 == k) = false := by simpa using ha
        simp [omapSet, omapGet, ha', ih]

theorem omapDelete_append_fresh {β : Type} (m : OMap β) (k : String) (v : β)
    (h : k ∉ m.map (fun p => p.1)) :
    omapDelete (m ++ [(k, v)]) k = m := by
  induction m with
  | nil => simp [omapDelete]
  | cons a t ih =>
      simp only [List.map_cons, List.mem_cons, not_or] at h
      have ha : (a.1 == k) = false := beq_eq_false_iff_ne.mpr (fun hc => h.1 hc.symm)
      simp [omapDelete, ha, ih h.2]

theorem getContainerModals_addModal_fresh (c : Core) (n : String) (m : ModalDesc)
    (h : m.identifier ∉ containerIds c n) :
    getContainerModals (addModal c n m) n = getContainerModals c n ++ [m] := by
  have hfresh : m.identifier ∉ ((omapGet c.modals n).getD []).map (fun p => p.1) := h
  simp only [addModal, getContainerModals]
  rw [omapGet_set_self, omapSet_fresh _ _ _ hfresh]
  simp

theorem get?_pred_length_eq_getLast? {α : Type} (l : List α) :
    l.get? (l.length - 1) = l.getLast? := by
  induction l with
  | nil => rfl
  | cons a t ih =>
      cases t with
      | nil => rfl
      | cons b u =>
          rw [List.getLast?_cons_cons]
          exact ih

/-! ### Claims C4 and C5: registry and container view -/

/-- Claim C4: for every container, `count` equals the number of descriptors
registered under that name, `isEmpty` holds iff `count == 0`, and for every
non-empty container `activeId` is the key of the last element of the ordered
list, which after a fresh `addModal` is the descriptor just added. -/
theorem c4_container_view :
    (∀ (c : Core) (n : String),
        containerCount c n = (getContainerModals c n).length)
    ∧ (∀ (c : Core) (n : String),
        containerIsEmpty c n = true ↔ containerCount c n = 0)
    ∧ (∀ (c : Core) (n : String),
        getContainerModals c n ≠ [] →
          containerActiveId c n = (getContainerModals c n).getLast?.map (fun m => m.key))
    ∧ (∀ (c : Core) (n : String) (m : ModalDesc),
        m.identifier ∉ containerIds c n →
          containerActiveId (addModal c n m) n = some m.key) := by
  refine ⟨fun c n => rfl, fun c n => ?_, fun c n hne => ?_, fun c n m h => ?_⟩
  · simp [containerIsEmpty, containerCount]
  · have hlen : (getContainerModals c n).length ≠ 0 := by
      simpa [List.length_eq_zero] using hne
    simp only [containerActiveId, if_pos hlen]
    rw [get?_pred_length_eq_getLast?]
  · have hadd := getContainerModals_addModal_fresh c n m h
    have hne : getContainerModals (addModal c n m) n ≠ [] := by
      rw [hadd]; exact List.append_ne_nil_of_right_ne_nil _ (by simp)
    have hlen : (getContainerModals (addModal c n m) n).length ≠ 0 := by
      simpa [List.length_eq_zero] using hne
    simp only [containerActiveId, if_pos hlen]
    rw [get?_pred_length_eq_getLast?, hadd]
    simp

/-- Claim C4 witness: instantiation of the hypothetical conjuncts on a
concrete one-modal registry. -/
theorem c4_container_view_witness :
    containerActiveId (addModal ({} : Core) "main"
        { key := "main-a", identifier := "a", container := "main", closable := true }) "main"
      = some "main-a" :=
  c4_container_view.2.2.2 {} "main"
    { key := "main-a", identifier := "a", container := "main", closable := true }
    (by decide)

/-- Claim C5 (amended): `addModal` followed by `removeModal` with the same
identifier restores the container's ordered modal list, provided no descriptor
with that identifier was already registered in the container. -/
theorem c5_add_remove_roundtrip (c : Core) (n : String) (m : ModalDesc)
    (h : m.identifier ∉ containerIds c n) :
    getContainerModals (removeModal (addModal c n m) n m.identifier) n
      = getContainerModals c n := by
  have hfresh : m.identifier ∉ ((omapGet c.modals n).getD []).map (fun p => p.1) := h
  simp only [addModal, removeModal, getContainerModals]
  rw [omapSet_fresh _ _ _ hfresh, omapGet_set_self]
  simp only [omapDelete_append_fresh _ _ _ hfresh, omapGet_set_self, Option.getD_some]

/-- Claim C5 witness: round trip on the empty registry. -/
theorem c5_add_remove_roundtrip_witness :
    getContainerModals (removeModal (addModal ({} : Core) "main"
        { key := "main-y", identifier := "y", container := "main", closable := true })
      "main" "y") "main"
      = getContainerModals ({} : Core) "main" :=
  c5_add_remove_roundtrip {} "main"
    { key := "main-y", identifier := "y", container := "main", closable := true }
    (by decide)

/-- Registry holding one descriptor under identifier `"x"`; re-adding a
descriptor with the same identifier overwrites it in place, so the
add/remove round trip loses the original entry. -/
def c5Core : Core :=
  addModal {} "main" { key := "main-x", identifier := "x", container := "main", closable := true }

/-- Claim C5 counterexample: when a descriptor with the same identifier is
already registered, `addModal` overwrites it in place and the subsequent
`removeModal` deletes it, so the container's list is NOT left as it was. -/
theorem c5_counterexample :
    getContainerModals (removeModal (addModal c5Core "main"
        { key := "main-x", identifier := "x", container := "main", closable := false })
      "main" "x") "main"
      ≠ getContainerModals c5Core "main" := by decide

/-! ### Claim C3: position-derived flags (`useCreate`) -/

/-- `useCreate`: `isActive = (index === count - 1)`.  Indices and counts are
JS numbers; `Int` avoids truncated-subtraction artifacts. -/
def isActive (index count : Int) : Bool := index == count - 1

/-- `useCreate`: `isSecondary = (index === count - 2)`. -/
def isSecondary (index count : Int) : Bool := index == count - 2

/-- `useCreate`: `isTertiary = (index === count - 3)`. -/
def isTertiary (index count : Int) : Bool := index == count - 3

/-- `useCreate`: `isHidden = (index < count - 3)`. -/
def isHidden (index count : Int) : Bool := index < count - 3

/-- Descriptor A of the four-modal scenario. -/
def descA : ModalDesc := { key := "main-a", identifier := "a", container := "main", closable := true }

/-- Descriptor B of the four-modal scenario. -/
def descB : ModalDesc := { key := "main-b", identifier := "b", container := "main", closable := true }

/-- Descriptor C of the four-modal scenario. -/
def descC : ModalDesc := { key := "main-c", identifier := "c", container := "main", closable := true }

/-- Descriptor D of the four-modal scenario. -/
def descD : ModalDesc := { key := "main-d", identifier := "d", container := "main", closable := true }

/-- Registry after creating A, B, C, D in container `"main"` in that order. -/
def stackedCore : Core :=
  addModal (addModal (addModal (addModal {} "main" descA) "main" descB) "main" descC) "main" descD

/-- Claim C3: the derived flags satisfy `active ↔ index = count - 1`,
`secondary ↔ index = count - 2`, `tertiary ↔ index = count - 3` and
`hidden ↔ index < count - 3`; after creating A,B,C,D in order the stack
is [A,B,C,D] with count 4, and D (index 3) is active, C (index 2) secondary,
B (index 1) tertiary, A (index 0) hidden. -/
theorem c3_position_flags :
    (∀ index count : Int, isActive index count = true ↔ index = count - 1)
    ∧ (∀ index count : Int, isSecondary index count = true ↔ index = count - 2)
    ∧ (∀ index count : Int, isTertiary index count = true ↔ index = count - 3)
    ∧ (∀ index count : Int, isHidden index count = true ↔ index < count - 3)
    ∧ (containerCount stackedCore "main" = 4
        ∧ (getContainerModals stackedCore "main").map (fun m => m.key)
            = ["main-a", "main-b", "main-c", "main-d"]
        ∧ containerActiveId stackedCore "main" = some descD.key
        ∧ isActive 3 4 = true ∧ isSecondary 2 4 = true
        ∧ isTertiary 1 4 = true ∧ isHidden 0 4 = true) := by
  refine ⟨?_, ?_, ?_, ?_, by decide⟩
  · intro i c; simp [isActive]
  · intro i c; simp [isSecondary]
  · intro i c; simp [isTertiary]
  · intro i c; simp [isHidden]

/-! ### Claims C9 and C10: option resolver, factory, hide transition -/

/-- The module-level `defaultOptions` of `internal/options.ts`: `closable:
true` with built-in `enter`/`refuse`/`leave` animation definitions (keyframe
and timing literals abstracted as tokens). -/
def defaultOptions : ContainerOption :=
  { closable := true,
    bodyClass := none,
    animations :=
      { enter := some ⟨some "default-enter-params", some "default-enter-options"⟩,
        refuse := some ⟨some "default-refuse-params", some "default-refuse-options"⟩,
        leave := some ⟨some "default-leave-params", some "default-leave-options"⟩ } }

/-- Modelled from the spec: `mergeConfig` lives in the external
`@termeh-v/utils` package, not in this repository.  Per the spec it
deep-merges a partial override into a base configuration, and each
`animations.*` sub-path named in the replace list is replaced wholesale when
the override provides it. -/
def mergeAnimations (base : ModalAnimations) (p : ModalAnimations) : ModalAnimations :=
  { enter := p.enter.orElse (fun _ => base.enter),
    refuse := p.refuse.orElse (fun _ => base.refuse),
    leave := p.leave.orElse (fun _ => base.leave),
    mobileEnter := p.mobileEnter.orElse (fun _ => base.mobileEnter),
    mobileRefuse := p.mobileRefuse.orElse (fun _ => base.mobileRefuse),
    mobileLeave := p.mobileLeave.orElse (fun _ => base.mobileLeave),
    activate := p.activate.orElse (fun _ => base.activate),
    secondary := p.secondary.orElse (fun _ => base.secondary),
    tertiary := p.tertiary.orElse (fun _ => base.tertiary),
    hide := p.hide.orElse (fun _ => base.hide) }

/-- Modelled from the spec: deep merge of a partial `ContainerOption` into a
full one — an override field wins when present, animation entries are
replaced wholesale. -/
def mergeConfig (base : ContainerOption) (p : OptionPatch) : ContainerOption :=
  { closable := p.closable.getD base.closable,
    bodyClass := p.bodyClass.orElse (fun _ => base.bodyClass),
    animations :=
      match p.animations with
      | none => base.animations
      | some pa => mergeAnimations base.animations pa }

/-- `setDefaultOptions(option)`: `defaultOptions = mergeConfig(defaultOptions,
option, ...)`, as an explicit state transformation of the module-level
default. -/
def setDefaultOptions (cur : ContainerOption) (p : OptionPatch) : ContainerOption :=
  mergeConfig cur p

/-- Instance-level options accepted by `useModal().create`. -/
structure CreateOpts where
  container : Option String := none
  closable : Option Bool := none
  hasOnOpen : Bool := false
  hasOnClose : Bool := false
  hasOnClick : Bool := false
  hasOnAction : Bool := false
deriving DecidableEq, Repr

/-- `options?.container || "main"` — the empty string is falsy in JS. -/
def resolveContainer (o : Option String) : String :=
  match o with
  | some s => if s = "" then "main" else s
  | none => "main"

/-- The descriptor `useModal().create(component, props, options)` builds: the
nanoid-generated identifier is passed explicitly, `key =
container + "-" + identifier`, and `closable = options?.closable ??
mergeConfig(getDefaultOptions(), core.getOptions(container)).closable`. -/
def createDesc (defaults : ContainerOption) (core : Core) (identifier : String)
    (component props : String) (opts : CreateOpts) : ModalDesc :=
  let container := resolveContainer opts.container
  let config := mergeConfig defaults (getOptions core container)
  { key := container ++ "-" ++ identifier,
    identifier := identifier,
    container := container,
    closable := opts.closable.getD config.closable,
    hasOnOpen := opts.hasOnOpen,
    hasOnClose := opts.hasOnClose,
    hasOnClick := opts.hasOnClick,
    hasOnAction := opts.hasOnAction,
    component := component,
    props := props }

/-- `useModal().create`: build the descriptor and `addModal` it into the
resolved container. -/
def create (defaults : ContainerOption) (core : Core) (identifier : String)
    (component props : String) (opts : CreateOpts) : Core :=
  addModal core (resolveContainer opts.container)
    (createDesc defaults core identifier component props opts)

/-- Claim C9: `create` defaults the container to `"main"`, derives
`key = "<container>-<identifier>"`, and resolves effective `closable` as the
instance override when given, else the `closable` of the merge of global
defaults with the container's stored options; after
`setDefaultOptions({closable: false})` a modal created with no instance
override gets `closable = false`. -/
theorem c9_create_resolution :
    (∀ (d : ContainerOption) (core : Core) (id comp pr : String) (o : CreateOpts),
        o.container = none → (createDesc d core id comp pr o).container = "main")
    ∧ (∀ (d : ContainerOption) (core : Core) (id comp pr : String) (o : CreateOpts),
        (createDesc d core id comp pr o).key
          = (createDesc d core id comp pr o).container ++ "-" ++ id)
    ∧ (∀ (d : ContainerOption) (core : Core) (id comp pr : String) (o : CreateOpts),
        (createDesc d core id comp pr o).closable
          = o.closable.getD
              (mergeConfig d (getOptions core (resolveContainer o.container))).closable)
    ∧ (createDesc (setDefaultOptions defaultOptions { closable := some false })
          {} "n1" "comp" "props" {}).closable = false := by
  refine ⟨?_, fun d core id comp pr o => rfl, fun d core id comp pr o => rfl, by decide⟩
  intro d core id comp pr o h
  simp [createDesc, resolveContainer, h]

/-- Claim C9 witness: a `create` call with no options targets container
`"main"`. -/
theorem c9_create_resolution_witness :
    (createDesc defaultOptions {} "n2" "comp" "props" {}).container = "main" :=
  c9_create_resolution.1 defaultOptions {} "n2" "comp" "props" {} rfl

/-- The `{params, options}` resolution performed by the source `hide()`
transition (`useAnimation`): `anim?.tertiary?.params || <hide default params>`
and `anim?.tertiary?.options || <hide default options>` — it reads the
`tertiary` entry of the animation config. -/
def hideResolve (anim : Option ModalAnimations) : String × String :=
  (((anim.bind (fun a => a.tertiary)).bind (fun a => a.params)).getD "builtin-hide-params",
   ((anim.bind (fun a => a.tertiary)).bind (fun a => a.options)).getD "builtin-hide-options")

/-- Modelled from the spec: the resolution the spec prescribes for the `hide`
transition — read the `hide` entry of the animation config, falling back to
the built-in default only when that entry is unset. -/
def hideResolveSpec (anim : Option ModalAnimations) : String × String :=
  (((anim.bind (fun a => a.hide)).bind (fun a => a.params)).getD "builtin-hide-params",
   ((anim.bind (fun a => a.hide)).bind (fun a => a.options)).getD "builtin-hide-options")

/-- An animation config whose `tertiary` and `hide` entries are both set and
distinct. -/
def c10Anim : ModalAnimations :=
  { tertiary := some ⟨some "tertiary-params", some "tertiary-options"⟩,
    hide := some ⟨some "hide-params", some "hide-options"⟩ }

/-- Claim C10: on a config defining both entries, the source `hide()`
resolves the `tertiary` entry, not the `hide` entry the spec prescribes —
the `hide` entry of the config is ignored. -/
theorem c10_hide_reads_tertiary :
    hideResolve (some c10Anim) = ("tertiary-params", "tertiary-options")
    ∧ c10Anim.hide = some ⟨some "hide-params", some "hide-options"⟩
    ∧ hideResolveSpec (some c10Anim) = ("hide-params", "hide-options")
    ∧ hideResolve (some c10Anim) ≠ hideResolveSpec (some c10Anim) := by decide

/-! ### Modal instance controller (`useCreate`) as a small-step machine

JavaScript runs the controller single-threaded: each entry point executes
synchronously and promise continuations (the `.then`/`.catch` chains on the
leave animation and on the `onClick`/`onAction` handler promises) run on
later event-loop turns.  A scenario is a list of steps, each either a public
entry-point call or the delivery of the oldest pending continuation. -/

/-- Settlement status of an animation promise. -/
inductive AnimResult
  | ignored
  | done
  | error
deriving DecidableEq, Repr

/-- `CloseMode` from `internal/types.ts`. -/
inductive CloseMode
  | manual
  | click
  | overlay
  | action
deriving DecidableEq, Repr

/-- `ClickArea` from `internal/types.ts`. -/
inductive ClickArea
  | modal
  | overlay
deriving DecidableEq, Repr

/-- Outcome of a user handler promise: resolution with a boolean, or
rejection. -/
inductive HandlerResult
  | resolved (b : Bool)
  | rejected
deriving DecidableEq, Repr

/-- Observable events of one instance, in occurrence order: the pre-removal
notification (named `beforeRemove` or `removing` depending on the source
variant), leave settlement, the `onClose` callback, the `removeModal` call,
handler invocations, and the start of a refuse animation. -/
inductive Ev
  | removing (key : String)
  | leaveSettle (r : AnimResult)
  | onCloseEv (mode : CloseMode)
  | registryRemove (container identifier : String)
  | onClickCall (area : ClickArea)
  | onActionCall (key : String)
  | refuseAnim
deriving DecidableEq, Repr

/-- A pending promise continuation, carrying the data its closure captured
and the settlement value it will receive. -/
inductive Pending
  | closeCont (mode : CloseMode) (r : AnimResult)
  | clickCont (mode : CloseMode) (r : HandlerResult)
  | actionCont (r : HandlerResult)
deriving DecidableEq, Repr

/-- Static configuration of one mounted instance: its `vmOptions` params
record (key/identifier/container/closable and which optional callbacks
exist), whether the container emitter is attached, and its environment:
whether the root element resolves, whether the instance sits in the hidden
band (`index < count - 3`), and whether the animate primitive fulfills
(`animOk = true`) or rejects. -/
structure InstCfg where
  key : String
  identifier : String
  container : String
  closable : Bool
  hasEmitter : Bool
  hasOnClose : Bool
  hasOnClick : Bool
  hasOnAction : Bool
  elPresent : Bool
  hidden : Bool
  animOk : Bool
deriving DecidableEq, Repr

/-- Dynamic state: the `closing`/`loading` refs, the global registry, the
FIFO queue of pending continuations, the results the user handlers will
produce (consumed in call order), and the observable trace. -/
structure InstState where
  closing : Bool := false
  loading : Bool := false
  core : Core := {}
  pending : List Pending := []
  clickResults : List HandlerResult := []
  actionResults : List HandlerResult := []
  trace : List Ev := []
deriving DecidableEq, Repr

/-- Append an observable event to the trace. -/
def pushEv (e : Ev) (s : InstState) : InstState :=
  { s with trace := s.trace ++ [e] }

/-- `_close(mode)`: emit the pre-removal notification when an emitter and a
key exist, then run `animator.leave(() => closing.value = true)` and chain
`onClose`/`removeModal` on its promise.  `leave` returns `undefined` when
already closing (so nothing is chained); it settles `"ignored"` without
invoking the `before` callback when the element is unavailable or the
instance is hidden; otherwise it invokes `before` (setting `closing`) and
starts the animation, which settles `"done"` or `"error"` later. -/
def _close (cfg : InstCfg) (mode : CloseMode) (s : InstState) : InstState :=
  let s := if cfg.hasEmitter ∧ cfg.key ≠ "" then pushEv (.removing cfg.key) s else s
  if s.closing then s
  else if ¬cfg.elPresent ∨ cfg.hidden then
    { s with pending := s.pending ++ [.closeCont mode .ignored] }
  else
    { s with closing := true,
             pending := s.pending ++ [.closeCont mode (if cfg.animOk then .done else .error)] }

/-- `animator.refuse()`: no-op while hidden, closing or loading; settles
`"ignored"` without animating when the element is unavailable; otherwise
plays the refuse animation (the controller never observes its settlement). -/
def refuse (cfg : InstCfg) (s : InstState) : InstState :=
  if cfg.hidden ∨ s.closing ∨ s.loading then s
  else if ¬cfg.elPresent then s
  else pushEv .refuseAnim s

/-- `close()`: `if (loading.value) return; _close("manual")`. -/
def close (cfg : InstCfg) (s : InstState) : InstState :=
  if s.loading then s else _close cfg .manual s

/-- `_onClick(target)`: ignored while loading; with a configured `onClick`
handler, set `loading`, call the handler and chain its continuation;
without one, an overlay click closes when `closable === true` and plays
refuse otherwise, and a content click is ignored. -/
def _onClick (cfg : InstCfg) (target : ClickArea) (s : InstState) : InstState :=
  if s.loading then s
  else
    let mode := if target == ClickArea.modal then CloseMode.click else CloseMode.overlay
    if cfg.hasOnClick then
      let r := s.clickResults.headD (.resolved false)
      let s := { s with loading := true, clickResults := s.clickResults.tail }
      let s := pushEv (.onClickCall target) s
      { s with pending := s.pending ++ [.clickCont mode r] }
    else if mode == CloseMode.overlay then
      if cfg.closable then _close cfg .overlay s
      else refuse cfg s
    else s

/-- `action(key, data)`: ignored when no `onAction` handler is configured or
already loading; otherwise set `loading`, call the handler and chain its
continuation. -/
def action (cfg : InstCfg) (k : String) (s : InstState) : InstState :=
  if ¬cfg.hasOnAction ∨ s.loading then s
  else
    let r := s.actionResults.headD (.resolved false)
    let s := { s with loading := true, actionResults := s.actionResults.tail }
    let s := pushEv (.onActionCall k) s
    { s with pending := s.pending ++ [.actionCont r] }

/-- Deliver one settled continuation.  The `_close` chain records the leave
settlement, invokes `onClose(mode)` when configured, and removes the
descriptor from the registry.  Handler continuations clear `loading`; a
truthy resolution closes (mode `click`/`overlay`/`action`), a falsy overlay
resolution plays refuse, and a rejection only clears `loading`. -/
def runPending (cfg : InstCfg) (p : Pending) (s : InstState) : InstState :=
  match p with
  | .closeCont mode r =>
      let s := pushEv (.leaveSettle r) s
      let s := if cfg.hasOnClose then pushEv (.onCloseEv mode) s else s
      let s := pushEv (.registryRemove cfg.container cfg.identifier) s
      { s with core := removeModal s.core cfg.container cfg.identifier }
  | .clickCont mode r =>
      match r with
      | .rejected => { s with loading := false }
      | .resolved res =>
          let s := { s with loading := false }
          if res then _close cfg mode s
          else if mode == CloseMode.overlay then refuse cfg s
          else s
  | .actionCont r =>
      match r with
      | .rejected => { s with loading := false }
      | .resolved res =>
          let s := { s with loading := false }
          if res then _close cfg .action s else s

/-- Public entry points of the controller. -/
inductive EntryCall
  | closeCall
  | clickCall (area : ClickArea)
  | actionCall (k : String)
deriving DecidableEq, Repr

/-- One scenario step: a synchronous entry-point call, or one event-loop
turn delivering the oldest pending continuation. -/
inductive Step
  | act (a : EntryCall)
  | run
deriving DecidableEq, Repr

/-- Execute one step. -/
def doStep (cfg : InstCfg) (s : InstState) : Step → InstState
  | .act .closeCall => close cfg s
  | .act (.clickCall a) => _onClick cfg a s
  | .act (.actionCall k) => action cfg k s
  | .run =>
      match s.pending with
      | [] => s
      | p :: rest => runPending cfg p { s with pending := rest }

/-- Execute a scenario. -/
def exec (cfg : InstCfg) (steps : List Step) (s : InstState) : InstState :=
  steps.foldl (fun s st => doStep cfg s st) s

/-- The settlement value `leave` produces for a given environment. -/
def leaveResult (cfg : InstCfg) : AnimResult :=
  if ¬cfg.elPresent ∨ cfg.hidden then .ignored
  else if cfg.animOk then .done else .error

/-! ### Claim C1: close ordering -/

/-- Claim C1: from a not-yet-closing state with the container emitter
attached, an `onClose` handler configured and a non-empty key, `_close(mode)`
first emits the pre-removal notification carrying the instance's key, and
the chained continuation then records the leave settlement, invokes
`onClose(mode)` and only then removes the descriptor from the registry — in
exactly that order, on the animated and on the degraded (`"ignored"`)
leave paths alike, so the registry removal never precedes the leave
settlement. -/
theorem c1_close_order (cfg : InstCfg) (s0 : InstState) (mode : CloseMode)
    (hclos : s0.closing = false) (hpend : s0.pending = [])
    (hemit : cfg.hasEmitter = true) (hkey : cfg.key ≠ "")
    (hoc : cfg.hasOnClose = true) :
    (_close cfg mode s0).trace = s0.trace ++ [.removing cfg.key]
    ∧ (doStep cfg (_close cfg mode s0) .run).trace
        = s0.trace ++ [.removing cfg.key, .leaveSettle (leaveResult cfg),
            .onCloseEv mode, .registryRemove cfg.container cfg.identifier]
    ∧ (doStep cfg (_close cfg mode s0) .run).core
        = removeModal s0.core cfg.container cfg.identifier := by
  by_cases hel : cfg.elPresent = true <;> by_cases hhid : cfg.hidden = true <;>
    simp [_close, pushEv, doStep, runPending, leaveResult, hclos, hpend,
      hemit, hkey, hel, hhid, hoc, List.append_assoc]

/-- Concrete instance configuration used by the claim C1 witness. -/
def c1Cfg : InstCfg :=
  { key := "main-a", identifier := "a", container := "main", closable := true,
    hasEmitter := true, hasOnClose := true, hasOnClick := false, hasOnAction := false,
    elPresent := true, hidden := false, animOk := true }

/-- Claim C1 witness: the close sequence on a concrete instance produces the
four events in the claimed order. -/
theorem c1_close_order_witness :
    (doStep c1Cfg (_close c1Cfg .manual {}) .run).trace
      = ({} : InstState).trace ++ [.removing "main-a", .leaveSettle (leaveResult c1Cfg),
          .onCloseEv .manual, .registryRemove "main" "a"] :=
  (c1_close_order c1Cfg {} .manual rfl rfl rfl (by decide) rfl).2.1

/-! ### Claim C2: idempotent close -/

/-- Whether an event is an `onClose` invocation. -/
def isOnCloseEv : Ev → Bool
  | .onCloseEv _ => true
  | _ => false

/-- Whether an event is a `removeModal` call. -/
def isRemoveEv : Ev → Bool
  | .registryRemove _ _ => true
  | _ => false

/-- Whether a pending continuation is a `_close` continuation. -/
def isClosePend : Pending → Bool
  | .closeCont _ _ => true
  | _ => false

/-- Number of `onClose` invocations recorded in a trace. -/
def onCloseCount (t : List Ev) : Nat := t.countP isOnCloseEv

/-- Number of `removeModal` calls recorded in a trace. -/
def removeCount (t : List Ev) : Nat := t.countP isRemoveEv

/-- Number of queued `_close` continuations. -/
def closePendCount (ps : List Pending) : Nat := ps.countP isClosePend

theorem onCloseCount_append (t u : List Ev) :
    onCloseCount (t ++ u) = onCloseCount t + onCloseCount u := by
  simp [onCloseCount, List.countP_append]

theorem removeCount_append (t u : List Ev) :
    removeCount (t ++ u) = removeCount t + removeCount u := by
  simp [removeCount, List.countP_append]

@[simp] theorem pushEv_pending (e : Ev) (s : InstState) : (pushEv e s).pending = s.pending := rfl

@[simp] theorem pushEv_closing (e : Ev) (s : InstState) : (pushEv e s).closing = s.closing := rfl

@[simp] theorem pushEv_loading (e : Ev) (s : InstState) : (pushEv e s).loading = s.loading := rfl

@[simp] theorem pushEv_core (e : Ev) (s : InstState) : (pushEv e s).core = s.core := rfl

theorem onCloseCount_pushEv (e : Ev) (s : InstState) :
    onCloseCount (pushEv e s).trace
      = onCloseCount s.trace + (if isOnCloseEv e then 1 else 0) := by
  simp [pushEv, onCloseCount, List.countP_append, List.countP_cons]

theorem removeCount_pushEv (e : Ev) (s : InstState) :
    removeCount (pushEv e s).trace
      = removeCount s.trace + (if isRemoveEv e then 1 else 0) := by
  simp [pushEv, removeCount, List.countP_append, List.countP_cons]

/-- Scenarios built only from `close()` calls and event-loop turns. -/
def CloseOnlySteps (steps : List Step) : Prop :=
  ∀ st ∈ steps, st = Step.act .closeCall ∨ st = Step.run

/-- Invariant tying the `closing` flag to how many close continuations can
still fire: before closing starts nothing is queued or recorded, and once it
starts the queued continuations plus the recorded invocations never exceed
one. -/
def CloseInv (s : InstState) : Prop :=
  (∀ p ∈ s.pending, isClosePend p = true)
  ∧ closePendCount s.pending + onCloseCount s.trace ≤ 1
  ∧ closePendCount s.pending + removeCount s.trace ≤ 1
  ∧ (s.closing = false → s.pending = [] ∧ onCloseCount s.trace = 0 ∧ removeCount s.trace = 0)

theorem closeInv_close (cfg : InstCfg) (hel : cfg.elPresent = true)
    (hhid : cfg.hidden = false) (s : InstState) (hInv : CloseInv s) (m : CloseMode) :
    CloseInv (_close cfg m s) := by
  obtain ⟨hPend, hOn, hRem, hFresh⟩ := hInv
  simp only [_close]
  set s1 : InstState :=
    if cfg.hasEmitter ∧ cfg.key ≠ "" then pushEv (.removing cfg.key) s else s with hs1
  have h1p : s1.pending = s.pending := by rw [hs1]; split <;> simp
  have h1c : s1.closing = s.closing := by rw [hs1]; split <;> simp
  have h1t : onCloseCount s1.trace = onCloseCount s.trace
      ∧ removeCount s1.trace = removeCount s.trace := by
    rw [hs1]; split
    · simp [onCloseCount_pushEv, removeCount_pushEv, isOnCloseEv, isRemoveEv]
    · exact ⟨rfl, rfl⟩
  by_cases hc : s.closing = true
  · rw [if_pos (h1c.trans hc)]
    exact ⟨by rw [h1p]; exact hPend,
      by rw [h1p, h1t.1]; exact hOn,
      by rw [h1p, h1t.2]; exact hRem,
      fun hf => absurd hf (by simp [h1c.trans hc])⟩
  · have hcf : s.closing = false := by simpa using hc
    obtain ⟨hp0, ho0, hr0⟩ := hFresh hcf
    rw [if_neg (by rw [h1c, hcf]; simp)]
    rw [if_neg (by simp [hel, hhid])]
    refine ⟨?_, ?_, ?_, ?_⟩
    · intro p hp
      simp only [h1p, hp0, List.nil_append, List.mem_singleton] at hp
      simp [hp, isClosePend]
    · simp [h1p, hp0, h1t.1, ho0, closePendCount, List.countP_cons, isClosePend]
    · simp [h1p, hp0, h1t.2, hr0, closePendCount, List.countP_cons, isClosePend]
    · intro hf; simp at hf

theorem closeInv_doStep (cfg : InstCfg) (hel : cfg.elPresent = true)
    (hhid : cfg.hidden = false) (s : InstState) (hInv : CloseInv s) (st : Step)
    (hst : st = Step.act .closeCall ∨ st = Step.run) :
    CloseInv (doStep cfg s st) := by
  rcases hst with rfl | rfl
  · by_cases hl : s.loading = true
    · simpa [doStep, close, hl] using hInv
    · simp only [doStep, close, hl, if_false, Bool.false_eq_true]
      exact closeInv_close cfg hel hhid s hInv .manual
  · obtain ⟨hPend, hOn, hRem, hFresh⟩ := hInv
    cases hp : s.pending with
    | nil => simpa [doStep, hp] using ⟨hPend, hOn, hRem, hFresh⟩
    | cons p rest =>
        have hcT : s.closing = true := by
          by_contra hc
          have := (hFresh (by simpa using hc)).1
          simp [hp] at this
        have hcp : isClosePend p = true := hPend p (by simp [hp])
        cases p with
        | clickCont m r => simp [isClosePend] at hcp
        | actionCont r => simp [isClosePend] at hcp
        | closeCont m r =>
            have hlen : List.countP isClosePend rest = rest.length :=
              List.countP_eq_length.mpr (fun a ha => hPend a (by simp [hp, ha]))
            have hone : List.countP isClosePend (Pending.closeCont m r :: rest)
                = rest.length + 1 := by simp [List.countP_cons, isClosePend, hlen]
            rw [hp] at hOn hRem
            simp only [closePendCount] at hOn hRem
            rw [hone] at hOn hRem
            have hoc0 : onCloseCount s.trace = 0 := by omega
            have hrc0 : removeCount s.trace = 0 := by omega
            have hr0 : rest = [] := List.length_eq_zero.mp (by omega)
            subst hr0
            simp only [doStep, hp, runPending]
            set s2 : InstState := pushEv (.leaveSettle r) { s with pending := [] } with hs2
            set s3 : InstState :=
              if cfg.hasOnClose then pushEv (.onCloseEv m) s2 else s2 with hs3
            have h3p : s3.pending = [] := by rw [hs3]; split <;> simp [hs2]
            have h3c : s3.closing = s.closing := by rw [hs3]; split <;> simp [hs2]
            have h3o : onCloseCount s3.trace ≤ 1 := by
              rw [hs3]; split <;>
                simp [hs2, onCloseCount_pushEv, isOnCloseEv, hoc0]
            have h3r : removeCount s3.trace = 0 := by
              rw [hs3]; split <;>
                simp [hs2, removeCount_pushEv, isRemoveEv, hrc0]
            refine ⟨?_, ?_, ?_, ?_⟩
            · intro q hq
              simp only [pushEv_pending, h3p, List.not_mem_nil] at hq
            · simp only [pushEv_pending, h3p]
              have := onCloseCount_pushEv (.registryRemove cfg.container cfg.identifier) s3
              simp only [isOnCloseEv] at this
              simp [closePendCount, this, h3o]
            · simp only [pushEv_pending, h3p]
              have := removeCount_pushEv (.registryRemove cfg.container cfg.identifier) s3
              simp only [isRemoveEv] at this
              simp [closePendCount, this, h3r]
            · intro hf
              simp only [pushEv_closing, h3c] at hf
              rw [hcT] at hf
              cases hf

theorem closeInv_exec (cfg : InstCfg) (hel : cfg.elPresent = true)
    (hhid : cfg.hidden = false) (steps : List Step) (hsteps : CloseOnlySteps steps)
    (s : InstState) (hInv : CloseInv s) : CloseInv (exec cfg steps s) := by
  induction steps generalizing s with
  | nil => exact hInv
  | cons st rest ih =>
      have h1 : st = Step.act .closeCall ∨ st = Step.run := hsteps st (by simp)
      have h2 : CloseOnlySteps rest := fun x hx => hsteps x (by simp [hx])
      simpa [exec] using ih h2 _ (closeInv_doStep cfg hel hhid s hInv st h1)

/-- Claim C2 (amended): provided the root element is available and the
instance is not in the hidden band, any sequence of `close()` calls and
event-loop turns invokes `onClose` at most once and calls `removeModal` at
most once — the first close sets `closing` synchronously through the leave
`before` callback, and `leave`'s closing guard drops every later attempt —
and the rapid double-close scenario yields exactly one `onClose` and exactly
one removal.  (Without that proviso the leave settles `"ignored"` without
setting `closing` and a second rapid close duplicates `onClose`, see the
counterexample.) -/
theorem c2_close_idempotent (cfg : InstCfg) (core : Core)
    (hel : cfg.elPresent = true) (hhid : cfg.hidden = false)
    (hoc : cfg.hasOnClose = true) (hemit : cfg.hasEmitter = true) (hkey : cfg.key ≠ "") :
    (∀ steps : List Step, CloseOnlySteps steps →
        onCloseCount (exec cfg steps { core := core }).trace ≤ 1
        ∧ removeCount (exec cfg steps { core := core }).trace ≤ 1)
    ∧ onCloseCount (exec cfg [.act .closeCall, .act .closeCall, .run, .run]
        { core := core }).trace = 1
    ∧ removeCount (exec cfg [.act .closeCall, .act .closeCall, .run, .run]
        { core := core }).trace = 1 := by
  have hInv0 : CloseInv { core := core } := by
    refine ⟨by simp, ?_, ?_, by simp [onCloseCount, removeCount, closePendCount]⟩ <;>
      simp [onCloseCount, removeCount, closePendCount]
  refine ⟨fun steps hsteps => ?_, ?_, ?_⟩
  · obtain ⟨-, hOn, hRem, -⟩ := closeInv_exec cfg hel hhid steps hsteps _ hInv0
    exact ⟨by omega, by omega⟩
  · simp [exec, doStep, close, _close, pushEv, runPending, hel, hhid, hoc, hemit, hkey,
      onCloseCount_append, onCloseCount, isOnCloseEv]
  · simp [exec, doStep, close, _close, pushEv, runPending, hel, hhid, hoc, hemit, hkey,
      removeCount_append, removeCount, isRemoveEv]

/-- Concrete instance configuration used by the claim C2 witness. -/
def c2wCfg : InstCfg :=
  { key := "main-w", identifier := "w", container := "main", closable := true,
    hasEmitter := true, hasOnClose := true, hasOnClick := false, hasOnAction := false,
    elPresent := true, hidden := false, animOk := true }

/-- Claim C2 witness: the rapid double close on a concrete instance invokes
`onClose` exactly once. -/
theorem c2_close_idempotent_witness :
    onCloseCount (exec c2wCfg [.act .closeCall, .act .closeCall, .run, .run]
      { core := ({} : Core) }).trace = 1 :=
  (c2_close_idempotent c2wCfg {} rfl rfl rfl rfl (by decide)).2.1

/-- Configuration of the claim C2 counterexample: identical instance but the
root element does not resolve. -/
def c2cexCfg : InstCfg :=
  { key := "main-a", identifier := "a", container := "main", closable := true,
    hasEmitter := true, hasOnClose := true, hasOnClick := false, hasOnAction := false,
    elPresent := false, hidden := false, animOk := true }

/-- Claim C2 counterexample: when the root element is unavailable (likewise
when the instance is hidden), `leave` settles `"ignored"` without running the
`before` callback, so `closing` is never set and two rapid `close()` calls
each chain a full close continuation — `onClose` fires twice, against the
claimed exactly-once guarantee. -/
theorem c2_counterexample :
    onCloseCount (exec c2cexCfg [.act .closeCall, .act .closeCall, .run, .run]
      { core := ({} : Core) }).trace = 2 := by decide

/-! ### Claims C6 and C7: click routing -/

/-- Claim C6: on an active, non-loading, not-yet-closing instance with no
`onClick` handler, when `closable` is true a single overlay click produces
exactly one pre-removal notification followed by exactly one
`onClose("overlay")` and the registry removal; when `closable` is false the
overlay click plays the refuse transition instead and nothing closes. -/
theorem c6_overlay_click (cfg : InstCfg) (core : Core)
    (hemit : cfg.hasEmitter = true) (hkey : cfg.key ≠ "")
    (hnc : cfg.hasOnClick = false) (hoc : cfg.hasOnClose = true)
    (hel : cfg.elPresent = true) (hhid : cfg.hidden = false) :
    (cfg.closable = true →
      (exec cfg [.act (.clickCall .overlay), .run] { core := core }).trace
        = [.removing cfg.key, .leaveSettle (leaveResult cfg),
           .onCloseEv .overlay, .registryRemove cfg.container cfg.identifier]
      ∧ (exec cfg [.act (.clickCall .overlay), .run] { core := core }).core
          = removeModal core cfg.container cfg.identifier)
    ∧ (cfg.closable = false →
      (exec cfg [.act (.clickCall .overlay), .run] { core := core }).trace = [.refuseAnim]
      ∧ (exec cfg [.act (.clickCall .overlay), .run] { core := core }).core = core) := by
  constructor
  · intro hcl
    constructor <;>
      simp [exec, doStep, _onClick, _close, pushEv, runPending, refuse, leaveResult,
        hemit, hkey, hnc, hoc, hel, hhid, hcl]
  · intro hcl
    constructor <;>
      simp [exec, doStep, _onClick, _close, pushEv, runPending, refuse,
        hemit, hkey, hnc, hoc, hel, hhid, hcl]

/-- Concrete instance configuration used by the claim C6 witness. -/
def c6wCfg : InstCfg :=
  { key := "main-f", identifier := "f", container := "main", closable := true,
    hasEmitter := true, hasOnClose := true, hasOnClick := false, hasOnAction := false,
    elPresent := true, hidden := false, animOk := true }

/-- Claim C6 witness: the closable overlay click on a concrete instance. -/
theorem c6_overlay_click_witness :
    (exec c6wCfg [.act (.clickCall .overlay), .run] { core := ({} : Core) }).trace
      = [.removing "main-f", .leaveSettle (leaveResult c6wCfg),
         .onCloseEv .overlay, .registryRemove "main" "f"] :=
  ((c6_overlay_click c6wCfg {} rfl (by decide) rfl rfl rfl rfl).1 rfl).1

/-- Claim C7: with an `onClick` handler that resolves `false` on an overlay
click, the click marks `loading`, the falsy resolution clears it and plays
the refuse transition; no close event occurs and the registry is untouched,
so the modal remains registered. -/
theorem c7_click_false_refuse (cfg : InstCfg) (core : Core) (rest : List HandlerResult)
    (hclick : cfg.hasOnClick = true)
    (hel : cfg.elPresent = true) (hhid : cfg.hidden = false) :
    (exec cfg [.act (.clickCall .overlay), .run]
        { core := core, clickResults := .resolved false :: rest }).trace
      = [.onClickCall .overlay, .refuseAnim]
    ∧ (exec cfg [.act (.clickCall .overlay), .run]
        { core := core, clickResults := .resolved false :: rest }).core = core
    ∧ (exec cfg [.act (.clickCall .overlay), .run]
        { core := core, clickResults := .resolved false :: rest }).loading = false
    ∧ (exec cfg [.act (.clickCall .overlay), .run]
        { core := core, clickResults := .resolved false :: rest }).closing = false := by
  refine ⟨?_, ?_, ?_, ?_⟩ <;>
    simp [exec, doStep, _onClick, pushEv, runPending, refuse, hclick, hel, hhid]

/-- Concrete instance configuration used by the claim C7 witness. -/
def c7wCfg : InstCfg :=
  { key := "main-g", identifier := "g", container := "main", closable := true,
    hasEmitter := true, hasOnClose := true, hasOnClick := true, hasOnAction := false,
    elPresent := true, hidden := false, animOk := true }

/-- Claim C7 witness: the falsy overlay click on a concrete instance leaves
the registry untouched and plays refuse. -/
theorem c7_click_false_refuse_witness :
    (exec c7wCfg [.act (.clickCall .overlay), .run]
        { core := ({} : Core), clickResults := [.resolved false] }).trace
      = [.onClickCall .overlay, .refuseAnim] :=
  (c7_click_false_refuse c7wCfg {} [] rfl rfl rfl).1

/-! ### Claim C8: action routing -/

/-- Claim C8 (amended): `action(key, data)` is ignored when no `onAction`
handler is configured or while `loading`; otherwise it sets `loading` and
invokes the handler; a truthy resolution closes with mode `action` exactly
once — one `onClose("action")` and one registry removal — and a rejection
clears `loading` without closing.  Calling `action` again after removal
cannot close again (`leave`'s `closing` guard suppresses the chain, so the
counts stay at one), but it is not a full no-op: `action` itself has no
`closing` guard, so the handler is re-invoked (see the counterexample). -/
theorem c8_action_routing (cfg : InstCfg) (core : Core) (k : String)
    (rest : List HandlerResult)
    (hact : cfg.hasOnAction = true) (hoc : cfg.hasOnClose = true)
    (hemit : cfg.hasEmitter = true) (hkey : cfg.key ≠ "")
    (hel : cfg.elPresent = true) (hhid : cfg.hidden = false) :
    (∀ (cfg2 : InstCfg) (s : InstState),
        cfg2.hasOnAction = false ∨ s.loading = true → action cfg2 k s = s)
    ∧ ((exec cfg [.act (.actionCall k), .run, .run]
          { core := core, actionResults := .resolved true :: rest }).trace
        = [.onActionCall k, .removing cfg.key, .leaveSettle (leaveResult cfg),
           .onCloseEv .action, .registryRemove cfg.container cfg.identifier]
      ∧ (exec cfg [.act (.actionCall k), .run, .run]
          { core := core, actionResults := .resolved true :: rest }).core
          = removeModal core cfg.container cfg.identifier)
    ∧ ((exec cfg [.act (.actionCall k), .run]
          { core := core, actionResults := .rejected :: rest }).trace
        = [.onActionCall k]
      ∧ (exec cfg [.act (.actionCall k), .run]
          { core := core, actionResults := .rejected :: rest }).loading = false
      ∧ (exec cfg [.act (.actionCall k), .run]
          { core := core, actionResults := .rejected :: rest }).closing = false
      ∧ (exec cfg [.act (.actionCall k), .run]
          { core := core, actionResults := .rejected :: rest }).core = core)
    ∧ (onCloseCount (exec cfg
          [.act (.actionCall k), .run, .run, .act (.actionCall k), .run]
          { core := core, actionResults := [.resolved true, .resolved true] }).trace = 1
      ∧ removeCount (exec cfg
          [.act (.actionCall k), .run, .run, .act (.actionCall k), .run]
          { core := core, actionResults := [.resolved true, .resolved true] }).trace = 1) := by
  refine ⟨fun cfg2 s h => ?_, ⟨?_, ?_⟩, ⟨?_, ?_, ?_, ?_⟩, ⟨?_, ?_⟩⟩
  · rcases h with h | h <;> simp [action, h]
  all_goals
    simp [exec, doStep, action, _close, pushEv, runPending, refuse, leaveResult,
      onCloseCount, removeCount, isOnCloseEv, isRemoveEv, List.countP_cons,
      hact, hoc, hemit, hkey, hel, hhid]

/-- Concrete instance configuration used by the claim C8 witness. -/
def c8wCfg : InstCfg :=
  { key := "main-h", identifier := "h", container := "main", closable := true,
    hasEmitter := true, hasOnClose := true, hasOnClick := false, hasOnAction := true,
    elPresent := true, hidden := false, animOk := true }

/-- Claim C8 witness: a truthy `onAction` resolution on a concrete instance
closes with mode `action` after the handler call and the notification. -/
theorem c8_action_routing_witness :
    (exec c8wCfg [.act (.actionCall "primary"), .run, .run]
        { core := ({} : Core), actionResults := [.resolved true] }).trace
      = [.onActionCall "primary", .removing "main-h", .leaveSettle (leaveResult c8wCfg),
         .onCloseEv .action, .registryRemove "main" "h"] :=
  (c8_action_routing c8wCfg {} "primary" [] rfl rfl rfl (by decide) rfl rfl).2.1.1

/-- Concrete configuration of the claim C8 counterexample. -/
def c8cexCfg : InstCfg :=
  { key := "main-p", identifier := "p", container := "main", closable := true,
    hasEmitter := true, hasOnClose := true, hasOnClick := false, hasOnAction := true,
    elPresent := true, hidden := false, animOk := true }

/-- Initial state of the claim C8 counterexample: the descriptor registered,
two truthy handler resolutions available. -/
def c8cexState : InstState :=
  { core := addModal {} "main"
      { key := "main-p", identifier := "p", container := "main",
        closable := true, hasOnClose := true, hasOnAction := true },
    actionResults := [.resolved true, .resolved true] }

/-- Claim C8 counterexample: after the action-driven close completed and the
descriptor was removed, calling `action` again is NOT a no-op — `action` is
guarded only by handler absence and `loading`, not by `closing`, so the
`onAction` handler is invoked again and the state changes. -/
theorem c8_counterexample :
    doStep c8cexCfg (exec c8cexCfg [.act (.actionCall "primary"), .run, .run] c8cexState)
        (.act (.actionCall "primary"))
      ≠ exec c8cexCfg [.act (.actionCall "primary"), .run, .run] c8cexState := by decide

end ModalSpec
